import Mathlib

/- Shallow embedding of the trailing-stop decision engine of the
trading_algos repository.  The embedded code is:
  - trading_algos/trailing/volume_atr.py (class VolumeATRTrailing),
  - trading_algos/config.py (the constants),
  - trail_my_trade.py (the standalone script: get_volume_ratio, get_atr,
    trail_position and its constants).
Python floats are idealised as exact rationals.  Python round(x, d) is
idealised as round-half-up on rationals; every concrete input used below
is off a half-way tie, where the two conventions agree.  The market-data
fetches (copy_rates_from_pos) are modelled as an Option (List Bar) input;
the clipped volume multiplier of volume_atr.py line 89 and the blended
ATR of lines 100-101 enter the decision core as explicit inputs, and the
multiplier formula itself is embedded over the reals as vmultiplier. -/

/- The Batteries rational arithmetic definitions are shipped
irreducible, which blocks kernel evaluation of the embedded functions on
concrete inputs; restore the default reducibility for this development
so that closed facts are settled by decide. -/
attribute [local semireducible] Rat.add Rat.mul Rat.inv Rat.sub

/-- SymbolInfo of trading_algos/core/broker.py: the per-symbol metadata
the engine consumes. -/
structure SymbolInfo where
  digits : ℕ
  point : ℚ
  trade_contract_size : ℚ
  trade_stops_level : ℚ
deriving DecidableEq

/-- Position of trading_algos/core/position.py (the fields the decision
logic reads; symbol and comment are routing data, not arithmetic). type
is 0 for buy, 1 for sell. -/
structure Position where
  ticket : ℕ
  type : ℕ
  volume : ℚ
  price_open : ℚ
  price_current : ℚ
  sl : ℚ
  tp : ℚ
  profit : ℚ
  swap : ℚ
deriving DecidableEq

/-- Position.is_buy property of position.py. -/
def Position.is_buy (p : Position) : Bool := p.type == 0

/-- One OHLCV bar as returned by copy_rates_from_pos. -/
structure Bar where
  open_ : ℚ
  high : ℚ
  low : ℚ
  close : ℚ
  tick_volume : ℚ
deriving DecidableEq

/-- The instruction the engine sends to the broker in one invocation:
modify the stop to a price, remove it (modify to 0.0), or do nothing. -/
inductive Instr where
  | setStop (price : ℚ)
  | removeStop
  | noOp
deriving DecidableEq

/-- The mutable state of a VolumeATRTrailing instance (its __init__):
first_sl_set, cleaned_preexisting_sl, last_profit, last_monitor_log. -/
structure EngineState where
  first_sl_set : Finset ℕ
  cleaned_preexisting_sl : Finset ℕ
  last_profit : ℕ → Option (ℚ × ℚ)
  last_monitor_log : ℕ → Option ℚ

/-- Python round(x, d): round to d decimal places. -/
def roundTo (d : ℕ) (x : ℚ) : ℚ := ((round (x * 10 ^ d) : ℤ) : ℚ) / 10 ^ d

/-- The broker-side effect of one instruction on the stored stop price:
a successful SetStop stores the price, a successful RemoveStop stores
0.0, a failed call or NoOp leaves the stop unchanged. -/
def apply_instr (i : Instr) (ok : Bool) (sl : ℚ) : ℚ :=
  match i, ok with
  | Instr.setStop p, true => p
  | Instr.removeStop, true => 0
  | _, _ => sl

namespace Config

/-- COMMISSION_PER_LOT = 3.5 of trading_algos/config.py. -/
def COMMISSION_PER_LOT : ℚ := 7/2

/-- BASE_MULTIPLIER = 2.0 of trading_algos/config.py. -/
def BASE_MULTIPLIER : ℚ := 2

/-- VOLUME_SENSITIVITY = 2.0 of trading_algos/config.py. -/
def VOLUME_SENSITIVITY : ℚ := 2

/-- MIN_MULTIPLIER = 1.0 of trading_algos/config.py. -/
def MIN_MULTIPLIER : ℚ := 1

/-- MAX_MULTIPLIER = 4.0 of trading_algos/config.py. -/
def MAX_MULTIPLIER : ℚ := 4

/-- ATR_PERIOD = 10 of trading_algos/config.py. -/
def ATR_PERIOD : ℕ := 10

/-- VOLUME_LOOKBACK = 10 of trading_algos/config.py. -/
def VOLUME_LOOKBACK : ℕ := 10

end Config

namespace Script

/-- ATR_PERIOD = 14 of trail_my_trade.py. -/
def ATR_PERIOD : ℕ := 14

/-- BASE_MULTIPLIER = 3.0 of trail_my_trade.py. -/
def BASE_MULTIPLIER : ℚ := 3

/-- VOLUME_LOOKBACK = 20 of trail_my_trade.py. -/
def VOLUME_LOOKBACK : ℕ := 20

/-- VOLUME_SENSITIVITY = 1.5 of trail_my_trade.py. -/
def VOLUME_SENSITIVITY : ℚ := 3/2

/-- MIN_MULTIPLIER = 1.5 of trail_my_trade.py. -/
def MIN_MULTIPLIER : ℚ := 3/2

/-- MAX_MULTIPLIER = 6.0 of trail_my_trade.py. -/
def MAX_MULTIPLIER : ℚ := 6

/-- EXTRA_SAFETY_BUFFER = 1.00 of trail_my_trade.py. -/
def EXTRA_SAFETY_BUFFER : ℚ := 1

end Script

/-- Per-bar true range against a previous close: the tail of the pandas
concat/max computation of the ATR estimators. -/
def trueRangesFrom (prev : Bar) : List Bar → List ℚ
  | [] => []
  | b :: rest =>
    max (b.high - b.low) (max |b.high - prev.close| |b.low - prev.close|) ::
      trueRangesFrom b rest

/-- True-range series of a bar list.  The first bar has no previous
close (pandas shift gives NaN there and the row max skips it), so its
true range is high - low. -/
def trueRanges : List Bar → List ℚ
  | [] => []
  | b :: rest => (b.high - b.low) :: trueRangesFrom b rest

/-- VolumeATRTrailing._get_atr of volume_atr.py: on a missing fetch or
at most `period` bars it falls back to point * 150, else it returns the
rolling mean over the last `period` true ranges (iloc[-1]). -/
def get_atr_engine (point : ℚ) (period : ℕ) (rates : Option (List Bar)) : ℚ :=
  match rates with
  | none => point * 150
  | some rs =>
    if rs.length ≤ period then point * 150
    else ((trueRanges rs).drop (rs.length - period)).sum / (period : ℚ)

/-- get_atr of trail_my_trade.py: on a missing fetch or at most
ATR_PERIOD = 14 bars it falls back to point * 100, else it returns the
rolling mean of 14 true ranges ending at the second-to-last bar
(iloc[-2]). -/
def get_atr_script (point : ℚ) (rates : Option (List Bar)) : ℚ :=
  match rates with
  | none => point * 100
  | some rs =>
    if rs.length ≤ Script.ATR_PERIOD then point * 100
    else
      (((trueRanges rs).drop (rs.length - (Script.ATR_PERIOD + 1))).take
          Script.ATR_PERIOD).sum / (Script.ATR_PERIOD : ℚ)

/-- The tick_volume column of a bar list. -/
def vols (rs : List Bar) : List ℚ := rs.map (fun b => b.tick_volume)

/-- The rolling mean of VOLUME_LOOKBACK = 10 volumes ending at the
second-to-last bar (iloc[-2] of the pandas rolling mean), as read by
VolumeATRTrailing._get_volume_ratio.  Meaningful when at least 11 bars
are present. -/
def vr_avg (rs : List Bar) : ℚ :=
  (((vols rs).drop (rs.length - (Config.VOLUME_LOOKBACK + 1))).take
      Config.VOLUME_LOOKBACK).sum / (Config.VOLUME_LOOKBACK : ℚ)

/-- The most recent bar volume (iloc[-1]) read by
VolumeATRTrailing._get_volume_ratio. -/
def vr_cur (rs : List Bar) : ℚ := (vols rs).getD (rs.length - 1) 0

/-- VolumeATRTrailing._get_volume_ratio of volume_atr.py.  A missing
fetch or fewer than 10 bars gives 1.0; with exactly 10 bars the rolling
window at iloc[-2] is incomplete, pandas yields NaN, the `avg > 0` test
is false and the function also returns 1.0; otherwise it returns
cur / avg when avg > 0 and 1.0 when not. -/
def get_volume_ratio_engine (rates : Option (List Bar)) : ℚ :=
  match rates with
  | none => 1
  | some rs =>
    if rs.length < Config.VOLUME_LOOKBACK then 1
    else if rs.length < Config.VOLUME_LOOKBACK + 1 then 1
    else if 0 < vr_avg rs then vr_cur rs / vr_avg rs else 1

/-- get_volume_ratio of trail_my_trade.py: lookback 20, rolling mean at
iloc[-2], numerator also iloc[-2], guard len < 21. -/
def get_volume_ratio_script (rates : Option (List Bar)) : ℚ :=
  match rates with
  | none => 1
  | some rs =>
    if rs.length < Script.VOLUME_LOOKBACK + 1 then 1
    else
      let avg := (((vols rs).drop (rs.length - (Script.VOLUME_LOOKBACK + 1))).take
          Script.VOLUME_LOOKBACK).sum / (Script.VOLUME_LOOKBACK : ℚ)
      let vol_now := (vols rs).getD (rs.length - 2) 0
      if 0 < avg then vol_now / avg else 1

/-- The numpy clip(x, lo, hi) = min(max(x, lo), hi) over the reals. -/
noncomputable def clipR (x lo hi : ℝ) : ℝ := min (max x lo) hi

/-- The volume-scaled trailing multiplier formula shared by
volume_atr.py line 89 and trail_my_trade.py line 173:
clip(base * ratio ** (1 / sens), lo, hi). -/
noncomputable def vmultiplier (base sens lo hi r : ℝ) : ℝ :=
  clipR (base * r ^ (1/sens)) lo hi

namespace VolumeATRTrailing

/-- The broker minimum stop distance used throughout volume_atr.py:
max(trade_stops_level * point, 30 * point). -/
def min_dist (info : SymbolInfo) : ℚ :=
  max (info.trade_stops_level * info.point) (30 * info.point)

/-- VolumeATRTrailing.should_set_initial_sl.  T is the activation
threshold PROFIT_TO_ACTIVATE_TRAILING, imported by volume_atr.py from
config (the constant is absent from config.py, so it is kept here as an
explicit parameter of every function that reads it). -/
def should_set_initial_sl (T : ℚ) (info : SymbolInfo) (s : EngineState)
    (pos : Position) : Bool :=
  if pos.ticket ∈ s.first_sl_set then false
  else
    let contract := pos.volume * info.trade_contract_size
    let min_dist_dollars := min_dist info * contract
    let commission := Config.COMMISSION_PER_LOT * pos.volume
    let required_profit := T + min_dist_dollars + commission - pos.swap
    decide (required_profit ≤ pos.profit)

/-- VolumeATRTrailing.calculate_initial_sl: solve the realized-profit
equation for the stop price, clamp to the broker minimum distance (the
tighter constraint wins), round to the symbol precision. -/
def calculate_initial_sl (T : ℚ) (info : SymbolInfo) (pos : Position) : ℚ :=
  let commission := Config.COMMISSION_PER_LOT * pos.volume
  let contract := pos.volume * info.trade_contract_size
  if pos.is_buy then
    roundTo info.digits
      (min (pos.price_open + (T + commission - pos.swap) / contract)
        (pos.price_current - min_dist info))
  else
    roundTo info.digits
      (max (pos.price_open - (T + commission - pos.swap) / contract)
        (pos.price_current + min_dist info))

/-- VolumeATRTrailing.profit_if_sl_hit: realized profit if the given
stop price is hit, net of swap and commission; 0.0 for an unset stop. -/
def profit_if_sl_hit (info : SymbolInfo) (pos : Position) (sl_price : ℚ) : ℚ :=
  if sl_price = 0 then 0
  else
    let diff := if pos.is_buy then sl_price - pos.price_open
      else pos.price_open - sl_price
    diff * pos.volume * info.trade_contract_size + pos.swap -
      Config.COMMISSION_PER_LOT * pos.volume

/-- The velocity adjustment of calculate_next_sl lines 93-98: when the
per-minute profit velocity against the stored record exceeds 6.0, the
already-clipped multiplier is scaled by max(0.7, 1 - velocity / 60). -/
def effective_mult (mult profit prev_profit prev_time now : ℚ) : ℚ :=
  if 6 < (profit - prev_profit) / max ((now - prev_time) / 60) (1/10) then
    mult * max (7/10)
      (1 - ((profit - prev_profit) / max ((now - prev_time) / 60) (1/10)) / 60)
  else mult

/-- The raw candidate stop computed by calculate_next_sl before the
ratchet and distance clamps: price_current minus (long) or plus (short)
mult * atr with the
velocity-adjusted multiplier.  mult is the clipped volume multiplier of
line 89 (vmultiplier) and atr the blended ATR of lines 100-101, both
computed from market data outside the decision core. -/
def next_candidate (pos : Position) (mult atr now : ℚ)
    (s : EngineState) : ℚ :=
  let prev := (s.last_profit pos.ticket).getD (pos.profit, now)
  let m := effective_mult mult pos.profit prev.1 prev.2 now
  if pos.is_buy then pos.price_current - m * atr else pos.price_current + m * atr

/-- VolumeATRTrailing.calculate_next_sl lines 103-114 plus the
last_profit update of line 98: ratchet against the current stop, clamp
to the minimum distance, round.  For a short position with sl == 0 the
Python `pos.sl or inf` makes min(candidate, inf) = candidate. -/
def calculate_next_sl (info : SymbolInfo) (pos : Position) (mult atr now : ℚ)
    (s : EngineState) : ℚ × EngineState :=
  let cand := next_candidate pos mult atr now s
  let s2 : EngineState :=
    { s with last_profit := fun t =>
        if t = pos.ticket then some (pos.profit, now) else s.last_profit t }
  let new_sl :=
    if pos.is_buy then
      min (max cand pos.sl) (pos.price_current - min_dist info)
    else
      max (if pos.sl = 0 then cand else min cand pos.sl)
        (pos.price_current + min_dist info)
  (roundTo info.digits new_sl, s2)

/-- Step 2 of VolumeATRTrailing.trail (lines 126-139): initial stop
placement with the locked-profit re-check, the positive-lock check and
the ownership transition on a successful Broker.modify_sl call. -/
def initial_step (T : ℚ) (info : SymbolInfo) (pos : Position) (modify_ok : Bool)
    (s : EngineState) : Instr × EngineState :=
  let sl := calculate_initial_sl T info pos
  let locked := profit_if_sl_hit info pos sl
  if T - 1/100 ≤ locked then
    if (pos.is_buy = true ∧ pos.price_open < sl) ∨
        (pos.is_buy = false ∧ sl < pos.price_open) then
      if modify_ok then
        (Instr.setStop sl,
          { s with first_sl_set := insert pos.ticket s.first_sl_set })
      else (Instr.setStop sl, s)
    else (Instr.noOp, s)
  else (Instr.noOp, s)

/-- Step 3 of VolumeATRTrailing.trail (lines 142-150): the owned-state
ratchet with the one-point churn guard. -/
def ratchet_step (info : SymbolInfo) (pos : Position) (mult atr now : ℚ)
    (s : EngineState) : Instr × EngineState :=
  let r := calculate_next_sl info pos mult atr now s
  if (pos.is_buy = true ∧ pos.sl + info.point < r.1) ∨
      (pos.is_buy = false ∧ r.1 < pos.sl - info.point) then
    (Instr.setStop r.1, r.2)
  else (Instr.noOp, r.2)

/-- The throttled monitoring tail of VolumeATRTrailing.trail
(lines 153-156). -/
def monitor_step (pos : Position) (now : ℚ) (s : EngineState) :
    Instr × EngineState :=
  match s.last_monitor_log pos.ticket with
  | none =>
    (Instr.noOp,
      { s with last_monitor_log := fun t =>
          if t = pos.ticket then some now else s.last_monitor_log t })
  | some t0 =>
    if 60 < now - t0 then
      (Instr.noOp,
        { s with last_monitor_log := fun t =>
            if t = pos.ticket then some now else s.last_monitor_log t })
    else (Instr.noOp, s)

/-- VolumeATRTrailing.trail: foreign-stop cleanup (once per ticket),
initial placement with the locked-profit re-check, owned ratchet with
the one-point churn guard, throttled monitoring.  modify_ok is the
success report of Broker.modify_sl; now stands for the wall clock. -/
def trail (T : ℚ) (info : SymbolInfo) (pos : Position) (mult atr now : ℚ)
    (modify_ok : Bool) (s : EngineState) : Instr × EngineState :=
  if pos.sl ≠ 0 ∧ pos.ticket ∉ s.cleaned_preexisting_sl ∧
      pos.ticket ∉ s.first_sl_set then
    (Instr.removeStop,
      { s with cleaned_preexisting_sl := insert pos.ticket s.cleaned_preexisting_sl })
  else if should_set_initial_sl T info s pos then
    initial_step T info pos modify_ok s
  else if pos.ticket ∈ s.first_sl_set then
    ratchet_step info pos mult atr now s
  else
    monitor_step pos now s

/-- The inputs that vary between two engine invocations on the same
position: the fresh snapshot values and the market-derived quantities. -/
structure CycleInput where
  price : ℚ
  profit : ℚ
  mult : ℚ
  atr : ℚ
  now : ℚ
  ok : Bool

/-- One poll cycle for a fixed position identity: refresh the snapshot
with the broker-stored stop and the cycle inputs, run trail, apply the
emitted instruction to the stored stop. -/
def cycle (T : ℚ) (info : SymbolInfo) (p0 : Position) (st : ℚ × EngineState)
    (inp : CycleInput) : ℚ × EngineState :=
  let pos : Position :=
    { p0 with sl := st.1, price_current := inp.price, profit := inp.profit }
  let r := trail T info pos inp.mult inp.atr inp.now inp.ok st.2
  (apply_instr r.1 inp.ok st.1, r.2)

end VolumeATRTrailing

/-- The symbol metadata the standalone script reads from mt5.symbol_info
(it additionally uses trade_tick_value for its commission estimate). -/
structure ScriptSymbolInfo where
  digits : ℕ
  point : ℚ
  trade_contract_size : ℚ
  trade_stops_level : ℚ
  trade_tick_value : ℚ
deriving DecidableEq

namespace Script

/-- trail_position of trail_my_trade.py, one invocation: profit gate
with the commission estimate, removal of the stop below the gate,
forced first safe stop at the minimum distance, ratchet, and the
volume-adjusted ATR trailing branch reached only when the forced stop
does not beat the existing one.  mult is the clipped multiplier of line
173 (vmultiplier with the Script constants) and atr the ATR estimate,
both computed from market data.  The returned set is _active_tickets. -/
def trail_position (info : ScriptSymbolInfo) (pos : Position) (mult atr : ℚ)
    (active : Finset ℕ) : Instr × Finset ℕ :=
  let commission_est :=
    |pos.volume * pos.price_open * info.trade_tick_value| * (3/10000)
  let required := max 0 (commission_est + EXTRA_SAFETY_BUFFER - pos.swap)
  if pos.profit < required then
    if 0 < pos.sl then (Instr.removeStop, active) else (Instr.noOp, active)
  else
    let active2 := insert pos.ticket active
    let dist := max (info.trade_stops_level * info.point) (30 * info.point)
    if pos.is_buy then
      let first_sl := pos.price_current - dist
      let profit_first := (first_sl - pos.price_open) * pos.volume *
        info.trade_contract_size + pos.swap - commission_est
      if profit_first < EXTRA_SAFETY_BUFFER then (Instr.noOp, active2)
      else
        let new1 := if 0 < pos.sl then max first_sl pos.sl else first_sl
        if pos.sl = 0 ∨ pos.sl < new1 then
          (Instr.setStop (roundTo info.digits new1), active2)
        else
          let c1 := pos.price_current - mult * atr
          let c2 := min c1 (pos.price_current - dist)
          let c3 := max c2 pos.sl
          if pos.sl + info.point < c3 then
            (Instr.setStop (roundTo info.digits c3), active2)
          else (Instr.noOp, active2)
    else
      let first_sl := pos.price_current + dist
      let profit_first := (pos.price_open - first_sl) * pos.volume *
        info.trade_contract_size + pos.swap - commission_est
      if profit_first < EXTRA_SAFETY_BUFFER then (Instr.noOp, active2)
      else
        let new1 := if 0 < pos.sl then min first_sl pos.sl else first_sl
        if pos.sl = 0 ∨ new1 < pos.sl then
          (Instr.setStop (roundTo info.digits new1), active2)
        else
          let c1 := pos.price_current + mult * atr
          let c2 := max c1 (pos.price_current + dist)
          let c3 := min c2 pos.sl
          if c3 < pos.sl - info.point then
            (Instr.setStop (roundTo info.digits c3), active2)
          else (Instr.noOp, active2)

end Script

/-- Rounding to a fixed number of decimals is monotone. -/
lemma roundTo_mono (d : ℕ) {x y : ℚ} (h : x ≤ y) : roundTo d x ≤ roundTo d y := by
  have h10 : (0:ℚ) < 10 ^ d := by positivity
  have h1 : round (x * 10 ^ d) ≤ round (y * 10 ^ d) := by
    rw [round_eq, round_eq]
    exact Int.floor_mono (by nlinarith)
  unfold roundTo
  gcongr

/-- Rounding fixes a value that is already on the decimal grid. -/
lemma roundTo_int (d : ℕ) {x : ℚ} (n : ℤ) (h : x * 10 ^ d = (n : ℚ)) :
    roundTo d x = x := by
  unfold roundTo
  rw [h, round_intCast]
  rw [div_eq_iff (by positivity : (0:ℚ) < 10 ^ d).ne']
  exact h.symm

/-- The output of roundTo lies on the grid of multiples of the point
whenever point * 10 ^ d = 1. -/
lemma roundTo_grid (d : ℕ) {p : ℚ} (hp : p * 10 ^ d = 1) (x : ℚ) :
    ∃ k : ℤ, roundTo d x = (k : ℚ) * p := by
  have h10 : ((10:ℚ) ^ d) ≠ 0 := by positivity
  have hpv : p = 1 / 10 ^ d := by rw [eq_div_iff h10]; exact hp
  refine ⟨round (x * 10 ^ d), ?_⟩
  unfold roundTo
  rw [hpv]
  ring

/-- The rounding error of roundTo is at most half of one decimal step. -/
lemma roundTo_err (d : ℕ) (x : ℚ) : |roundTo d x - x| ≤ 1 / (2 * 10 ^ d) := by
  have h10 : (0:ℚ) < 10 ^ d := by positivity
  have h := abs_sub_round (x * 10 ^ d)
  rw [abs_sub_comm] at h
  have key : roundTo d x - x
      = (((round (x * 10 ^ d) : ℤ) : ℚ) - x * 10 ^ d) / 10 ^ d := by
    unfold roundTo
    field_simp
    ring
  rw [key, abs_div, abs_of_pos h10,
    show (1:ℚ) / (2 * 10 ^ d) = (1/2) / 10 ^ d by ring]
  gcongr

/-- A point satisfying point * 10 ^ d = 1 is positive. -/
lemma point_pos {p : ℚ} {d : ℕ} (hp : p * 10 ^ d = 1) : 0 < p := by
  have h10 : ((10:ℚ) ^ d) ≠ 0 := by positivity
  have hpv : p = 1 / 10 ^ d := by rw [eq_div_iff h10]; exact hp
  rw [hpv]
  positivity

namespace VolumeATRTrailing

/-- One invocation of trail lands in exactly one of the four numbered
steps of the Python method. -/
lemma trail_cases (T : ℚ) (info : SymbolInfo) (pos : Position)
    (mult atr now : ℚ) (ok : Bool) (s : EngineState) :
    trail T info pos mult atr now ok s =
      (Instr.removeStop,
        { s with cleaned_preexisting_sl := insert pos.ticket s.cleaned_preexisting_sl }) ∨
    trail T info pos mult atr now ok s = initial_step T info pos ok s ∨
    (pos.ticket ∈ s.first_sl_set ∧
      trail T info pos mult atr now ok s = ratchet_step info pos mult atr now s) ∨
    trail T info pos mult atr now ok s = monitor_step pos now s := by
  unfold trail
  split_ifs with h1 h2 h3
  · exact Or.inl rfl
  · exact Or.inr (Or.inl rfl)
  · exact Or.inr (Or.inr (Or.inl ⟨h3, rfl⟩))
  · exact Or.inr (Or.inr (Or.inr rfl))

/-- For an owned ticket the cleanup and initial steps are skipped and
trail is exactly the ratchet step. -/
lemma trail_owned (T : ℚ) (info : SymbolInfo) (pos : Position)
    (mult atr now : ℚ) (ok : Bool) (s : EngineState)
    (h : pos.ticket ∈ s.first_sl_set) :
    trail T info pos mult atr now ok s = ratchet_step info pos mult atr now s := by
  have hset : should_set_initial_sl T info s pos = false := by
    unfold should_set_initial_sl
    rw [if_pos h]
  unfold trail
  rw [if_neg (fun hc => hc.2.2 h), hset]
  simp [h]

/-- If the initial step emits SetStop, the price is the computed initial
stop and the re-verified locked profit passed the T - 0.01 gate. -/
lemma initial_step_fst_inv (T : ℚ) (info : SymbolInfo) (pos : Position)
    (ok : Bool) (s : EngineState) (p : ℚ)
    (hp : (initial_step T info pos ok s).1 = Instr.setStop p) :
    p = calculate_initial_sl T info pos ∧
    T - 1/100 ≤ profit_if_sl_hit info pos (calculate_initial_sl T info pos) := by
  simp only [initial_step] at hp
  by_cases hl : T - 1/100 ≤ profit_if_sl_hit info pos (calculate_initial_sl T info pos)
  · rw [if_pos hl] at hp
    by_cases hd : (pos.is_buy = true ∧ pos.price_open < calculate_initial_sl T info pos)
        ∨ (pos.is_buy = false ∧ calculate_initial_sl T info pos < pos.price_open)
    · rw [if_pos hd] at hp
      cases ok <;> simp_all
    · rw [if_neg hd] at hp
      simp at hp
  · rw [if_neg hl] at hp
    simp at hp

/-- If the re-verified locked profit fails the T - 0.01 gate, the
initial step refuses to act. -/
lemma initial_step_refuses (T : ℚ) (info : SymbolInfo) (pos : Position)
    (ok : Bool) (s : EngineState)
    (h : profit_if_sl_hit info pos (calculate_initial_sl T info pos) < T - 1/100) :
    (initial_step T info pos ok s).1 = Instr.noOp := by
  simp only [initial_step]
  rw [if_neg (not_le.mpr h)]

/-- On a failed Broker.modify_sl call the initial step leaves the whole
engine state untouched. -/
lemma initial_step_fail_state (T : ℚ) (info : SymbolInfo) (pos : Position)
    (s : EngineState) :
    (initial_step T info pos false s).2 = s := by
  simp only [initial_step]
  split_ifs <;> simp_all

/-- The initial step can only grow the owned set. -/
lemma initial_step_first_superset (T : ℚ) (info : SymbolInfo) (pos : Position)
    (ok : Bool) (s : EngineState) :
    s.first_sl_set ⊆ (initial_step T info pos ok s).2.first_sl_set := by
  simp only [initial_step]
  split_ifs <;> simp_all [Finset.subset_insert]

/-- The ratchet step only rewrites last_profit inside the state. -/
lemma ratchet_step_snd (info : SymbolInfo) (pos : Position) (mult atr now : ℚ)
    (s : EngineState) :
    (ratchet_step info pos mult atr now s).2 =
      (calculate_next_sl info pos mult atr now s).2 := by
  simp only [ratchet_step]
  split_ifs <;> rfl

/-- The monitoring step always emits NoOp. -/
lemma monitor_step_fst (pos : Position) (now : ℚ) (s : EngineState) :
    (monitor_step pos now s).1 = Instr.noOp := by
  unfold monitor_step
  cases hm : s.last_monitor_log pos.ticket with
  | none => rfl
  | some t0 => dsimp only; split_ifs <;> rfl

/-- The monitoring step never touches the two stop-ownership sets. -/
lemma monitor_step_sets (pos : Position) (now : ℚ) (s : EngineState) :
    (monitor_step pos now s).2.first_sl_set = s.first_sl_set ∧
    (monitor_step pos now s).2.cleaned_preexisting_sl = s.cleaned_preexisting_sl := by
  unfold monitor_step
  cases hm : s.last_monitor_log pos.ticket with
  | none => exact ⟨rfl, rfl⟩
  | some t0 => dsimp only; split_ifs <;> exact ⟨rfl, rfl⟩

/-- trail can only grow the owned set. -/
lemma trail_first_superset (T : ℚ) (info : SymbolInfo) (pos : Position)
    (mult atr now : ℚ) (ok : Bool) (s : EngineState) :
    s.first_sl_set ⊆ (trail T info pos mult atr now ok s).2.first_sl_set := by
  rcases trail_cases T info pos mult atr now ok s with h | h | ⟨_, h⟩ | h <;> rw [h]
  · exact initial_step_first_superset T info pos ok s
  · rw [ratchet_step_snd]
    exact Finset.Subset.refl _
  · rw [(monitor_step_sets pos now s).1]

end VolumeATRTrailing

namespace VolumeATRTrailing

/-- The first component of calculate_next_sl is the rounded ratcheted
and distance-clamped candidate. -/
lemma calculate_next_sl_fst (info : SymbolInfo) (pos : Position)
    (mult atr now : ℚ) (s : EngineState) :
    (calculate_next_sl info pos mult atr now s).1 =
      roundTo info.digits
        (if pos.is_buy then
          min (max (next_candidate pos mult atr now s) pos.sl)
            (pos.price_current - min_dist info)
        else
          max (if pos.sl = 0 then next_candidate pos mult atr now s
            else min (next_candidate pos mult atr now s) pos.sl)
            (pos.price_current + min_dist info)) := rfl

/-- The next stop computed by the ratchet lies on the price grid. -/
lemma calculate_next_sl_fst_grid (info : SymbolInfo) (pos : Position)
    (mult atr now : ℚ) (s : EngineState)
    (hpt : info.point * 10 ^ info.digits = 1) :
    ∃ k : ℤ, (calculate_next_sl info pos mult atr now s).1 = (k : ℚ) * info.point := by
  rw [calculate_next_sl_fst]
  exact roundTo_grid info.digits hpt _

/-- Long churn bound: a candidate at most one point above the on-grid
stop keeps the rounded next stop at most one point above it. -/
lemma next_sl_le_buy (info : SymbolInfo) (pos : Position) (mult atr now : ℚ)
    (s : EngineState) (hbuy : pos.is_buy = true)
    (hpt : info.point * 10 ^ info.digits = 1) (k : ℤ)
    (hk : pos.sl = (k : ℚ) * info.point)
    (hc : next_candidate pos mult atr now s ≤ pos.sl + info.point) :
    (calculate_next_sl info pos mult atr now s).1 ≤ pos.sl + info.point := by
  have hp0 : 0 < info.point := point_pos hpt
  have hgrid : (pos.sl + info.point) * 10 ^ info.digits = ((k + 1 : ℤ) : ℚ) := by
    push_cast
    rw [hk]
    linear_combination ((k : ℚ) + 1) * hpt
  rw [calculate_next_sl_fst, if_pos hbuy]
  calc roundTo info.digits (min (max (next_candidate pos mult atr now s) pos.sl)
        (pos.price_current - min_dist info))
      ≤ roundTo info.digits (pos.sl + info.point) :=
        roundTo_mono _ (le_trans (min_le_left _ _) (max_le hc (by linarith)))
    _ = pos.sl + info.point := roundTo_int _ _ hgrid

/-- Short churn bound, mirrored. -/
lemma next_sl_ge_sell (info : SymbolInfo) (pos : Position) (mult atr now : ℚ)
    (s : EngineState) (hsell : pos.is_buy = false) (hsl : pos.sl ≠ 0)
    (hpt : info.point * 10 ^ info.digits = 1) (k : ℤ)
    (hk : pos.sl = (k : ℚ) * info.point)
    (hc : pos.sl - info.point ≤ next_candidate pos mult atr now s) :
    pos.sl - info.point ≤ (calculate_next_sl info pos mult atr now s).1 := by
  have hp0 : 0 < info.point := point_pos hpt
  have hgrid : (pos.sl - info.point) * 10 ^ info.digits = ((k - 1 : ℤ) : ℚ) := by
    push_cast
    rw [hk]
    linear_combination ((k : ℚ) - 1) * hpt
  rw [calculate_next_sl_fst, if_neg (by simp [hsell]), if_neg hsl]
  calc pos.sl - info.point
      = roundTo info.digits (pos.sl - info.point) := (roundTo_int _ _ hgrid).symm
    _ ≤ roundTo info.digits (max (min (next_candidate pos mult atr now s) pos.sl)
        (pos.price_current + min_dist info)) :=
        roundTo_mono _ (le_trans (le_min hc (by linarith)) (le_max_left _ _))

/-- The ratchet step emits NoOp when the churn guard fails. -/
lemma ratchet_step_fst_noOp (info : SymbolInfo) (pos : Position)
    (mult atr now : ℚ) (s : EngineState)
    (h : ¬((pos.is_buy = true ∧
        pos.sl + info.point < (calculate_next_sl info pos mult atr now s).1) ∨
      (pos.is_buy = false ∧
        (calculate_next_sl info pos mult atr now s).1 < pos.sl - info.point))) :
    (ratchet_step info pos mult atr now s).1 = Instr.noOp := by
  simp only [ratchet_step]
  rw [if_neg h]

/-- One owned-state invocation never lowers the stored stop of a long
position. -/
lemma stored_step_le_buy (T : ℚ) (info : SymbolInfo) (pos : Position)
    (mult atr now : ℚ) (ok : Bool) (s : EngineState)
    (hbuy : pos.is_buy = true) (h_own : pos.ticket ∈ s.first_sl_set)
    (hp0 : 0 < info.point) :
    pos.sl ≤ apply_instr (trail T info pos mult atr now ok s).1 ok pos.sl := by
  rw [trail_owned T info pos mult atr now ok s h_own]
  simp only [ratchet_step]
  split_ifs with hmv
  · rcases hmv with ⟨_, hlt⟩ | ⟨hf, _⟩
    · cases ok
      · simp [apply_instr]
      · simp only [apply_instr]
        linarith
    · rw [hbuy] at hf
      cases hf
  · cases ok <;> simp [apply_instr]

/-- One owned-state invocation never raises the stored stop of a short
position. -/
lemma stored_step_ge_sell (T : ℚ) (info : SymbolInfo) (pos : Position)
    (mult atr now : ℚ) (ok : Bool) (s : EngineState)
    (hsell : pos.is_buy = false) (h_own : pos.ticket ∈ s.first_sl_set)
    (hp0 : 0 < info.point) :
    apply_instr (trail T info pos mult atr now ok s).1 ok pos.sl ≤ pos.sl := by
  rw [trail_owned T info pos mult atr now ok s h_own]
  simp only [ratchet_step]
  split_ifs with hmv
  · rcases hmv with ⟨hf, _⟩ | ⟨_, hlt⟩
    · rw [hsell] at hf
      cases hf
    · cases ok
      · simp [apply_instr]
      · simp only [apply_instr]
        linarith
  · cases ok <;> simp [apply_instr]

/-- The stored stop stays on the price grid across an owned-state
invocation. -/
lemma stored_step_grid (T : ℚ) (info : SymbolInfo) (pos : Position)
    (mult atr now : ℚ) (ok : Bool) (s : EngineState)
    (h_own : pos.ticket ∈ s.first_sl_set)
    (hpt : info.point * 10 ^ info.digits = 1) (k : ℤ)
    (hk : pos.sl = (k : ℚ) * info.point) :
    ∃ k2 : ℤ, apply_instr (trail T info pos mult atr now ok s).1 ok pos.sl
      = (k2 : ℚ) * info.point := by
  rw [trail_owned T info pos mult atr now ok s h_own]
  simp only [ratchet_step]
  split_ifs with hmv
  · cases ok
    · exact ⟨k, by simp [apply_instr, hk]⟩
    · simpa [apply_instr] using calculate_next_sl_fst_grid info pos mult atr now s hpt
  · cases ok <;> exact ⟨k, by simp [apply_instr, hk]⟩

/-- Any run of poll cycles keeps the stored stop of an owned long
position at or above its starting value. -/
lemma cycle_fold_le_buy (T : ℚ) (info : SymbolInfo) (p0 : Position)
    (hbuy : p0.is_buy = true) (hpt : info.point * 10 ^ info.digits = 1) :
    ∀ (l : List CycleInput) (sl : ℚ) (s : EngineState),
      p0.ticket ∈ s.first_sl_set → (∃ k : ℤ, sl = (k : ℚ) * info.point) →
      sl ≤ (l.foldl (cycle T info p0) (sl, s)).1 := by
  intro l
  induction l with
  | nil => intro sl s _ _; exact le_refl _
  | cons i tl ih =>
    intro sl s h_own hgrid
    obtain ⟨k, hk⟩ := hgrid
    rw [List.foldl_cons]
    have hstep : sl ≤ (cycle T info p0 (sl, s) i).1 :=
      stored_step_le_buy T info
        { p0 with sl := sl, price_current := i.price, profit := i.profit }
        i.mult i.atr i.now i.ok s hbuy h_own (point_pos hpt)
    have hown2 : p0.ticket ∈ (cycle T info p0 (sl, s) i).2.first_sl_set :=
      trail_first_superset T info
        { p0 with sl := sl, price_current := i.price, profit := i.profit }
        i.mult i.atr i.now i.ok s h_own
    have hgrid2 : ∃ k2 : ℤ, (cycle T info p0 (sl, s) i).1 = (k2 : ℚ) * info.point :=
      stored_step_grid T info
        { p0 with sl := sl, price_current := i.price, profit := i.profit }
        i.mult i.atr i.now i.ok s h_own hpt k hk
    exact le_trans hstep (ih _ _ hown2 hgrid2)

/-- Any run of poll cycles keeps the stored stop of an owned short
position at or below its starting value. -/
lemma cycle_fold_ge_sell (T : ℚ) (info : SymbolInfo) (p0 : Position)
    (hsell : p0.is_buy = false) (hpt : info.point * 10 ^ info.digits = 1) :
    ∀ (l : List CycleInput) (sl : ℚ) (s : EngineState),
      p0.ticket ∈ s.first_sl_set → (∃ k : ℤ, sl = (k : ℚ) * info.point) →
      (l.foldl (cycle T info p0) (sl, s)).1 ≤ sl := by
  intro l
  induction l with
  | nil => intro sl s _ _; exact le_refl _
  | cons i tl ih =>
    intro sl s h_own hgrid
    obtain ⟨k, hk⟩ := hgrid
    rw [List.foldl_cons]
    have hstep : (cycle T info p0 (sl, s) i).1 ≤ sl :=
      stored_step_ge_sell T info
        { p0 with sl := sl, price_current := i.price, profit := i.profit }
        i.mult i.atr i.now i.ok s hsell h_own (point_pos hpt)
    have hown2 : p0.ticket ∈ (cycle T info p0 (sl, s) i).2.first_sl_set :=
      trail_first_superset T info
        { p0 with sl := sl, price_current := i.price, profit := i.profit }
        i.mult i.atr i.now i.ok s h_own
    have hgrid2 : ∃ k2 : ℤ, (cycle T info p0 (sl, s) i).1 = (k2 : ℚ) * info.point :=
      stored_step_grid T info
        { p0 with sl := sl, price_current := i.price, profit := i.profit }
        i.mult i.atr i.now i.ok s h_own hpt k hk
    exact le_trans (ih _ _ hown2 hgrid2) hstep

end VolumeATRTrailing

/-- C1: for a position the engine does not yet own, any SetStop emitted
by one trail invocation is the computed initial stop and locks at least
T * (1 - 1/100) of realized profit (for thresholds T at or above one
currency unit, since the code gate is the absolute T - 0.01); and if the
re-verified locked profit at the computed initial stop falls short of
T - 0.01, no SetStop is issued this cycle. -/
theorem C1_initial_profit_lock (T : ℚ) (info : SymbolInfo) (pos : Position)
    (mult atr now : ℚ) (ok : Bool) (s : EngineState)
    (hT : 1 ≤ T) (h_not_owned : pos.ticket ∉ s.first_sl_set) :
    (∀ p, (VolumeATRTrailing.trail T info pos mult atr now ok s).1 = Instr.setStop p →
        p = VolumeATRTrailing.calculate_initial_sl T info pos ∧
        T * (1 - 1/100) ≤ VolumeATRTrailing.profit_if_sl_hit info pos p)
    ∧ (VolumeATRTrailing.profit_if_sl_hit info pos
          (VolumeATRTrailing.calculate_initial_sl T info pos) < T - 1/100 →
        ∀ p, (VolumeATRTrailing.trail T info pos mult atr now ok s).1 ≠ Instr.setStop p) := by
  have hTq : T * (1 - 1/100) ≤ T - 1/100 := by linarith
  constructor
  · intro p hp
    rcases VolumeATRTrailing.trail_cases T info pos mult atr now ok s with
      h | h | ⟨ho, _⟩ | h
    · rw [h] at hp
      simp at hp
    · rw [h] at hp
      obtain ⟨h1, h2⟩ := VolumeATRTrailing.initial_step_fst_inv T info pos ok s p hp
      refine ⟨h1, ?_⟩
      rw [h1]
      linarith
    · exact absurd ho h_not_owned
    · rw [h, VolumeATRTrailing.monitor_step_fst] at hp
      simp at hp
  · intro hlock p hp
    rcases VolumeATRTrailing.trail_cases T info pos mult atr now ok s with
      h | h | ⟨ho, _⟩ | h
    · rw [h] at hp
      simp at hp
    · rw [h, VolumeATRTrailing.initial_step_refuses T info pos ok s hlock] at hp
      simp at hp
    · exact absurd ho h_not_owned
    · rw [h, VolumeATRTrailing.monitor_step_fst] at hp
      simp at hp

/-- Witness for C1: a long position at entry 1.10000, price 1.10800,
volume 0.4, swap 0.2, profit 60, threshold 10: trail emits
SetStop(1.10028) and the locked profit is at least 9.9. -/
theorem C1_witness :
    ((1:ℚ) ≤ 10)
    ∧ (VolumeATRTrailing.trail 10 ⟨5, 1/100000, 100000, 10⟩
        ⟨4, 0, 2/5, 11/10, 1108/1000, 0, 0, 60, 1/5⟩ 2 (3/1000) 0 true
        ⟨∅, ∅, fun _ => none, fun _ => none⟩).1 = Instr.setStop (27507/25000)
    ∧ (10:ℚ) * (1 - 1/100) ≤ VolumeATRTrailing.profit_if_sl_hit
        ⟨5, 1/100000, 100000, 10⟩ ⟨4, 0, 2/5, 11/10, 1108/1000, 0, 0, 60, 1/5⟩
        (27507/25000) := by
  refine ⟨by norm_num, by decide, ?_⟩
  exact ((C1_initial_profit_lock 10 ⟨5, 1/100000, 100000, 10⟩
      ⟨4, 0, 2/5, 11/10, 1108/1000, 0, 0, 60, 1/5⟩ 2 (3/1000) 0 true
      ⟨∅, ∅, fun _ => none, fun _ => none⟩ (by norm_num) (by decide)).1
    (27507/25000) (by decide)).2

/-- C2: for an owned position on the decimal price grid, any number of
repeated engine invocations never moves the stored stop backward (down
for long, up for short), and one invocation emits NoOp whenever the
computed raw candidate does not beat the current stop by more than one
price increment (candidate at most sl + point for long, mirrored for
short). -/
theorem C2_ratchet_monotonicity (T : ℚ) (info : SymbolInfo) (pos : Position)
    (mult atr now : ℚ) (ok : Bool) (s : EngineState)
    (h_own : pos.ticket ∈ s.first_sl_set)
    (h_pt : info.point * 10 ^ info.digits = 1)
    (h_grid : ∃ k : ℤ, pos.sl = (k : ℚ) * info.point) :
    (pos.is_buy = true → ∀ l : List VolumeATRTrailing.CycleInput,
        pos.sl ≤ (l.foldl (VolumeATRTrailing.cycle T info pos) (pos.sl, s)).1)
    ∧ (pos.is_buy = true →
        VolumeATRTrailing.next_candidate pos mult atr now s ≤ pos.sl + info.point →
        (VolumeATRTrailing.trail T info pos mult atr now ok s).1 = Instr.noOp)
    ∧ (pos.is_buy = false → ∀ l : List VolumeATRTrailing.CycleInput,
        (l.foldl (VolumeATRTrailing.cycle T info pos) (pos.sl, s)).1 ≤ pos.sl)
    ∧ (pos.is_buy = false → pos.sl ≠ 0 →
        pos.sl - info.point ≤ VolumeATRTrailing.next_candidate pos mult atr now s →
        (VolumeATRTrailing.trail T info pos mult atr now ok s).1 = Instr.noOp) := by
  obtain ⟨k, hk⟩ := h_grid
  refine ⟨?_, ?_, ?_, ?_⟩
  · intro hbuy l
    exact VolumeATRTrailing.cycle_fold_le_buy T info pos hbuy h_pt l pos.sl s h_own ⟨k, hk⟩
  · intro hbuy hc
    rw [VolumeATRTrailing.trail_owned T info pos mult atr now ok s h_own]
    apply VolumeATRTrailing.ratchet_step_fst_noOp
    rintro (⟨_, hlt⟩ | ⟨hf, _⟩)
    · exact absurd hlt (not_lt.mpr
        (VolumeATRTrailing.next_sl_le_buy info pos mult atr now s hbuy h_pt k hk hc))
    · rw [hbuy] at hf
      cases hf
  · intro hsell l
    exact VolumeATRTrailing.cycle_fold_ge_sell T info pos hsell h_pt l pos.sl s h_own ⟨k, hk⟩
  · intro hsell hsl hc
    rw [VolumeATRTrailing.trail_owned T info pos mult atr now ok s h_own]
    apply VolumeATRTrailing.ratchet_step_fst_noOp
    rintro (⟨hf, _⟩ | ⟨_, hlt⟩)
    · rw [hsell] at hf
      cases hf
    · exact absurd hlt (not_lt.mpr
        (VolumeATRTrailing.next_sl_ge_sell info pos mult atr now s hsell hsl h_pt k hk hc))

/-- Witness for C2: an owned long position with stop 1.10200 on a
5-digit symbol; with multiplier 2 and ATR 0.003 the raw candidate is
exactly the current stop, so the invocation is NoOp. -/
theorem C2_witness :
    ((3:ℕ) ∈ ({3} : Finset ℕ))
    ∧ ((1/100000 : ℚ) * 10 ^ (5:ℕ) = 1)
    ∧ ((1102/1000 : ℚ) = ((110200 : ℤ) : ℚ) * (1/100000))
    ∧ VolumeATRTrailing.next_candidate ⟨3, 0, 1/5, 11/10, 1108/1000, 1102/1000, 0, 20, 0⟩
        2 (3/1000) 0 ⟨{3}, ∅, fun _ => none, fun _ => none⟩ ≤ 1102/1000 + 1/100000
    ∧ (VolumeATRTrailing.trail 10 ⟨5, 1/100000, 100000, 10⟩
        ⟨3, 0, 1/5, 11/10, 1108/1000, 1102/1000, 0, 20, 0⟩ 2 (3/1000) 0 true
        ⟨{3}, ∅, fun _ => none, fun _ => none⟩).1 = Instr.noOp := by
  refine ⟨by decide, by norm_num, by norm_num, by decide, ?_⟩
  exact (C2_ratchet_monotonicity 10 ⟨5, 1/100000, 100000, 10⟩
      ⟨3, 0, 1/5, 11/10, 1108/1000, 1102/1000, 0, 20, 0⟩ 2 (3/1000) 0 true
      ⟨{3}, ∅, fun _ => none, fun _ => none⟩ (by decide) (by norm_num)
      ⟨110200, by norm_num⟩).2.1 rfl (by decide)

/-- C3 counterexample: a position with profit 0.05 below the threshold
10, a nonzero stop 1.09900 the engine does not own (owned set empty),
but whose ticket is already in the cleaned set: the invocation is NoOp,
not RemoveStop. -/
theorem C3_counterexample :
    ((⟨7, 0, 1/5, 11/10, 1101/1000, 1099/1000, 0, 1/20, 0⟩ : Position).profit < 10)
    ∧ ((⟨7, 0, 1/5, 11/10, 1101/1000, 1099/1000, 0, 1/20, 0⟩ : Position).sl ≠ 0)
    ∧ ((7:ℕ) ∉ (∅ : Finset ℕ))
    ∧ (VolumeATRTrailing.trail 10 ⟨5, 1/100000, 100000, 10⟩
        ⟨7, 0, 1/5, 11/10, 1101/1000, 1099/1000, 0, 1/20, 0⟩ 2 (3/1000) 0 true
        ⟨∅, {7}, fun _ => none, fun _ => none⟩).1 ≠ Instr.removeStop := by
  exact ⟨by norm_num, by norm_num, by decide, by decide⟩

/-- C3 amended: for a position with profit below the threshold carrying
a nonzero stop the engine neither owns nor has cleaned before, the
invocation emits RemoveStop and the owned set is unchanged (no Owned
transition). -/
theorem C3_amended_untracked_stop_removal (T : ℚ) (info : SymbolInfo)
    (pos : Position) (mult atr now : ℚ) (ok : Bool) (s : EngineState)
    (_h1 : pos.profit < T) (h2 : pos.sl ≠ 0)
    (h3 : pos.ticket ∉ s.first_sl_set)
    (h4 : pos.ticket ∉ s.cleaned_preexisting_sl) :
    (VolumeATRTrailing.trail T info pos mult atr now ok s).1 = Instr.removeStop
    ∧ (VolumeATRTrailing.trail T info pos mult atr now ok s).2.first_sl_set
      = s.first_sl_set := by
  unfold VolumeATRTrailing.trail
  rw [if_pos ⟨h2, h4, h3⟩]
  exact ⟨rfl, rfl⟩

/-- Witness for C3: the same unprofitable position with a foreign stop,
but in a fresh engine state: the invocation is RemoveStop. -/
theorem C3_witness :
    ((1/20 : ℚ) < 10) ∧ ((1099/1000 : ℚ) ≠ 0) ∧ ((7:ℕ) ∉ (∅ : Finset ℕ))
    ∧ (VolumeATRTrailing.trail 10 ⟨5, 1/100000, 100000, 10⟩
        ⟨7, 0, 1/5, 11/10, 1101/1000, 1099/1000, 0, 1/20, 0⟩ 2 (3/1000) 0 true
        ⟨∅, ∅, fun _ => none, fun _ => none⟩).1 = Instr.removeStop := by
  refine ⟨by norm_num, by norm_num, by decide, ?_⟩
  exact (C3_amended_untracked_stop_removal 10 ⟨5, 1/100000, 100000, 10⟩
      ⟨7, 0, 1/5, 11/10, 1101/1000, 1099/1000, 0, 1/20, 0⟩ 2 (3/1000) 0 true
      ⟨∅, ∅, fun _ => none, fun _ => none⟩ (by norm_num) (by norm_num)
      (by decide) (by decide)).1

/-- C9: when the external stop-modification call reports failure, the
owned-stop set is unchanged by the invocation; moreover when a not yet
owned position had an initial SetStop emitted and the call failed, the
whole engine state is unchanged, so the next invocation on the same
inputs repeats the same instruction. -/
theorem C9_failure_atomicity (T : ℚ) (info : SymbolInfo) (pos : Position)
    (mult atr now : ℚ) (s : EngineState) :
    ((VolumeATRTrailing.trail T info pos mult atr now false s).2.first_sl_set
      = s.first_sl_set)
    ∧ (pos.ticket ∉ s.first_sl_set →
        ∀ p, (VolumeATRTrailing.trail T info pos mult atr now false s).1
            = Instr.setStop p →
          (VolumeATRTrailing.trail T info pos mult atr now false s).2 = s ∧
          (VolumeATRTrailing.trail T info pos mult atr now false
              ((VolumeATRTrailing.trail T info pos mult atr now false s).2)).1
            = Instr.setStop p) := by
  constructor
  · rcases VolumeATRTrailing.trail_cases T info pos mult atr now false s with
      h | h | ⟨_, h⟩ | h <;> rw [h]
    · rw [VolumeATRTrailing.initial_step_fail_state]
    · rw [VolumeATRTrailing.ratchet_step_snd]
      rfl
    · exact (VolumeATRTrailing.monitor_step_sets pos now s).1
  · intro hno p hp
    rcases VolumeATRTrailing.trail_cases T info pos mult atr now false s with
      h | h | ⟨ho, _⟩ | h
    · rw [h] at hp
      simp at hp
    · have h2 : (VolumeATRTrailing.trail T info pos mult atr now false s).2 = s := by
        rw [h]
        exact VolumeATRTrailing.initial_step_fail_state T info pos s
      refine ⟨h2, ?_⟩
      rw [h2]
      exact hp
    · exact absurd ho hno
    · rw [h, VolumeATRTrailing.monitor_step_fst] at hp
      simp at hp

/-- Witness for C9: the initial placement scenario with a failing modify
call: the SetStop decision is emitted, yet the state equals the input
state. -/
theorem C9_witness :
    ((5:ℕ) ∉ (∅ : Finset ℕ))
    ∧ (VolumeATRTrailing.trail 10 ⟨5, 1/100000, 100000, 10⟩
        ⟨5, 0, 1/5, 11/10, 1108/1000, 0, 0, 60, 1/10⟩ 2 (3/1000) 0 false
        ⟨∅, ∅, fun _ => none, fun _ => none⟩).1 = Instr.setStop (110053/100000)
    ∧ (VolumeATRTrailing.trail 10 ⟨5, 1/100000, 100000, 10⟩
        ⟨5, 0, 1/5, 11/10, 1108/1000, 0, 0, 60, 1/10⟩ 2 (3/1000) 0 false
        ⟨∅, ∅, fun _ => none, fun _ => none⟩).2
      = (⟨∅, ∅, fun _ => none, fun _ => none⟩ : EngineState) := by
  refine ⟨by decide, by decide, ?_⟩
  exact ((C9_failure_atomicity 10 ⟨5, 1/100000, 100000, 10⟩
      ⟨5, 0, 1/5, 11/10, 1108/1000, 0, 0, 60, 1/10⟩ 2 (3/1000) 0
      ⟨∅, ∅, fun _ => none, fun _ => none⟩).2 (by decide) (110053/100000)
    (by decide)).1

/-- C4: the volume multiplier equals clip(base * ratio ** (1/sens), lo, hi):
it is monotone non-decreasing in the ratio, equals base exactly at ratio
1.0, and is clipped exactly to the bounds when the unclipped value lies
outside them (for a positive base and sensitivity with lo at most base at
most hi, as in both configurations). -/
theorem C4_multiplier_clip (base sens lo hi : ℝ)
    (hb : 0 ≤ base) (hs : 0 < sens) (hlo : lo ≤ base) (hhi : base ≤ hi) :
    (∀ r1 r2 : ℝ, 0 ≤ r1 → r1 ≤ r2 →
        vmultiplier base sens lo hi r1 ≤ vmultiplier base sens lo hi r2)
    ∧ vmultiplier base sens lo hi 1 = base
    ∧ (∀ r : ℝ, base * r ^ (1/sens) < lo → vmultiplier base sens lo hi r = lo)
    ∧ (∀ r : ℝ, hi < base * r ^ (1/sens) → vmultiplier base sens lo hi r = hi) := by
  refine ⟨?_, ?_, ?_, ?_⟩
  · intro r1 r2 h0 h12
    unfold vmultiplier clipR
    have hmono : base * r1 ^ (1/sens) ≤ base * r2 ^ (1/sens) :=
      mul_le_mul_of_nonneg_left
        (Real.rpow_le_rpow h0 h12 (div_nonneg zero_le_one hs.le)) hb
    exact min_le_min (max_le_max hmono le_rfl) le_rfl
  · unfold vmultiplier clipR
    rw [Real.one_rpow, mul_one, max_eq_left hlo, min_eq_left hhi]
  · intro r h
    unfold vmultiplier clipR
    rw [max_eq_right h.le, min_eq_left (le_trans hlo hhi)]
  · intro r h
    unfold vmultiplier clipR
    rw [min_eq_right (le_trans h.le (le_max_left _ _))]

/-- Witness for C4 at both configurations: base 2, sensitivity 2, clip
[1, 4] (config.py) and base 3, sensitivity 1.5, clip [1.5, 6]
(trail_my_trade.py); ratio 1 gives the base, a tiny ratio hits the
floor, a large ratio hits the cap, and monotonicity holds between. -/
theorem C4_witness :
    vmultiplier 2 2 1 4 1 = 2
    ∧ vmultiplier 3 (3/2) (3/2) 6 1 = 3
    ∧ vmultiplier 2 2 1 4 (((1:ℝ)/10) ^ (2:ℝ)) = 1
    ∧ vmultiplier 2 2 1 4 ((3:ℝ) ^ (2:ℝ)) = 4
    ∧ vmultiplier 2 2 1 4 (((1:ℝ)/10) ^ (2:ℝ)) ≤ vmultiplier 2 2 1 4 ((3:ℝ) ^ (2:ℝ)) := by
  have hc := C4_multiplier_clip 2 2 1 4 (by norm_num) (by norm_num) (by norm_num)
    (by norm_num)
  have hsx := C4_multiplier_clip 3 (3/2) (3/2) 6 (by norm_num) (by norm_num)
    (by norm_num) (by norm_num)
  have e1 : (((1:ℝ)/10) ^ (2:ℝ)) ^ ((1:ℝ)/2) = 1/10 := by
    rw [← Real.rpow_mul (by norm_num : (0:ℝ) ≤ 1/10),
      show (2:ℝ) * (1/2) = 1 by norm_num, Real.rpow_one]
  have e2 : ((3:ℝ) ^ (2:ℝ)) ^ ((1:ℝ)/2) = 3 := by
    rw [← Real.rpow_mul (by norm_num : (0:ℝ) ≤ 3),
      show (2:ℝ) * (1/2) = 1 by norm_num, Real.rpow_one]
  have e3 : ((3:ℝ) ^ (2:ℝ)) = 9 := by
    rw [show (2:ℝ) = ((2:ℕ) : ℝ) by norm_num, Real.rpow_natCast]
    norm_num
  have e4 : (((1:ℝ)/10) ^ (2:ℝ)) = 1/100 := by
    rw [show (2:ℝ) = ((2:ℕ) : ℝ) by norm_num, Real.rpow_natCast]
    norm_num
  refine ⟨hc.2.1, hsx.2.1, ?_, ?_, ?_⟩
  · exact hc.2.2.1 _ (by rw [e1]; norm_num)
  · exact hc.2.2.2 _ (by rw [e2]; norm_num)
  · exact hc.1 _ _ (by rw [e4]; norm_num) (by rw [e4, e3]; norm_num)

/-- The most recent volume read by the estimator is non-negative when
every bar volume is. -/
lemma vr_cur_nonneg (rs : List Bar) (h : ∀ b ∈ rs, 0 ≤ b.tick_volume) :
    0 ≤ vr_cur rs := by
  unfold vr_cur
  rw [List.getD_eq_getElem?_getD]
  rcases hx : (vols rs)[rs.length - 1]? with _ | v
  · simp
  · simp only [Option.getD_some]
    have hv : v ∈ vols rs := List.getElem?_mem hx
    obtain ⟨b, hb, hbv⟩ := List.mem_map.mp hv
    rw [← hbv]
    exact h b hb

/-- C5 counterexample: in scenario A (long, entry 1.10000, price
1.10800, stop 1.10200, profit 60, multiplier input 3, ATR 0.00120) the
script emits SetStop(1.10770), not SetStop(1.10440). -/
theorem C5_counterexample :
    (Script.trail_position ⟨5, 1/100000, 100000, 10, 1⟩
        ⟨5, 0, 1/5, 11/10, 1108/1000, 1102/1000, 0, 60, 0⟩ 3 (3/2500) ∅).1
      = Instr.setStop (11077/10000)
    ∧ (Script.trail_position ⟨5, 1/100000, 100000, 10, 1⟩
        ⟨5, 0, 1/5, 11/10, 1108/1000, 1102/1000, 0, 60, 0⟩ 3 (3/2500) ∅).1
      ≠ Instr.setStop (11044/10000) := ⟨by decide, by decide⟩

/-- C5 amended: with the scenario A inputs the invocation emits
SetStop(1.10770), the forced first safe stop at the minimum distance,
ratcheted above the existing stop 1.10200, and the ticket is marked
active; the multiplier at ratio 1.0 is exactly 3.0 and the volume-ATR
candidate would be 1.10800 - 3 * 0.00120 = 1.10440, but the early
return of the first-safe-stop branch never consults it. -/
theorem C5_amended :
    (Script.trail_position ⟨5, 1/100000, 100000, 10, 1⟩
        ⟨5, 0, 1/5, 11/10, 1108/1000, 1102/1000, 0, 60, 0⟩ 3 (3/2500) ∅)
      = (Instr.setStop (11077/10000), ({5} : Finset ℕ))
    ∧ vmultiplier 3 (3/2) (3/2) 6 1 = 3
    ∧ ((1108:ℚ)/1000 - 3 * (3/2500) = 11044/10000) := by
  refine ⟨by decide, ?_, by norm_num⟩
  unfold vmultiplier clipR
  rw [Real.one_rpow, mul_one, max_eq_left (by norm_num), min_eq_left (by norm_num)]

/-- C6 counterexample: the standalone script estimator falls back to
point * 100 on a missing fetch, not point * 150. -/
theorem C6_counterexample :
    get_atr_script (1/100000) none = (1/100000) * 100
    ∧ get_atr_script (1/100000) none ≠ (1/100000) * 150 := ⟨rfl, by decide⟩

/-- C6 amended: on a missing fetch or at most period bars, the engine
ATR estimator returns exactly point * 150 and the standalone script
estimator returns exactly point * 100. -/
theorem C6_amended_atr_fallbacks :
    (∀ (point : ℚ) (period : ℕ), get_atr_engine point period none = point * 150)
    ∧ (∀ (point : ℚ) (period : ℕ) (rs : List Bar), rs.length ≤ period →
        get_atr_engine point period (some rs) = point * 150)
    ∧ (∀ point : ℚ, get_atr_script point none = point * 100)
    ∧ (∀ (point : ℚ) (rs : List Bar), rs.length ≤ Script.ATR_PERIOD →
        get_atr_script point (some rs) = point * 100) := by
  refine ⟨fun _ _ => rfl, fun p per rs h => ?_, fun _ => rfl, fun p rs h => ?_⟩
  · simp only [get_atr_engine]
    rw [if_pos h]
  · simp only [get_atr_script]
    rw [if_pos h]

/-- Witness for C6: an empty bar list for the engine estimator and 14
identical bars for the script estimator. -/
theorem C6_witness :
    get_atr_engine (1/100000) 10 (some []) = (1/100000) * 150
    ∧ get_atr_script (1/100000) (some (List.replicate 14 ⟨1, 1, 1, 1, 1⟩))
      = (1/100000) * 100 :=
  ⟨C6_amended_atr_fallbacks.2.1 (1/100000) 10 [] (by decide),
    C6_amended_atr_fallbacks.2.2.2 (1/100000) (List.replicate 14 ⟨1, 1, 1, 1, 1⟩)
      (by decide)⟩

/-- C7 counterexample: eleven bars whose most recent volume is zero
with a positive rolling mean: the estimator returns exactly 0, which is
not strictly positive. -/
theorem C7_counterexample :
    get_volume_ratio_engine
        (some (List.replicate 10 (⟨1, 1, 1, 1, 1⟩ : Bar) ++ [(⟨1, 1, 1, 1, 0⟩ : Bar)]))
      = 0
    ∧ ¬(0 < get_volume_ratio_engine
        (some (List.replicate 10 (⟨1, 1, 1, 1, 1⟩ : Bar) ++ [(⟨1, 1, 1, 1, 0⟩ : Bar)]))) :=
  ⟨by decide, by decide⟩

/-- C7 amended: the estimator returns 1.0 on a missing fetch, on fewer
than eleven bars, and on a non-positive rolling mean; it is non-negative
whenever all bar volumes are; and with enough bars and a positive mean
it returns exactly cur / avg, which is zero when the most recent bar
volume is zero. -/
theorem C7_amended_volume_ratio :
    (get_volume_ratio_engine none = 1)
    ∧ (∀ rs : List Bar, rs.length < Config.VOLUME_LOOKBACK + 1 →
        get_volume_ratio_engine (some rs) = 1)
    ∧ (∀ rs : List Bar, vr_avg rs ≤ 0 → get_volume_ratio_engine (some rs) = 1)
    ∧ (∀ rs : List Bar, (∀ b ∈ rs, 0 ≤ b.tick_volume) →
        0 ≤ get_volume_ratio_engine (some rs))
    ∧ (∀ rs : List Bar, Config.VOLUME_LOOKBACK + 1 ≤ rs.length → 0 < vr_avg rs →
        get_volume_ratio_engine (some rs) = vr_cur rs / vr_avg rs) := by
  refine ⟨rfl, ?_, ?_, ?_, ?_⟩
  · intro rs h
    simp only [get_volume_ratio_engine]
    by_cases h1 : rs.length < Config.VOLUME_LOOKBACK
    · rw [if_pos h1]
    · rw [if_neg h1, if_pos h]
  · intro rs h
    simp only [get_volume_ratio_engine]
    split_ifs with h1 h2 h3
    · rfl
    · rfl
    · exact absurd h3 (not_lt.mpr h)
    · rfl
  · intro rs hv
    simp only [get_volume_ratio_engine]
    split_ifs with h1 h2 h3
    · norm_num
    · norm_num
    · exact div_nonneg (vr_cur_nonneg rs hv) h3.le
    · norm_num
  · intro rs hlen havg
    simp only [get_volume_ratio_engine, Config.VOLUME_LOOKBACK] at hlen ⊢
    rw [if_neg (by omega), if_neg (by omega), if_pos havg]

/-- Witness for C7: the insufficiency branch returns 1 and twelve bars
of volume 2 give a non-negative ratio. -/
theorem C7_witness :
    get_volume_ratio_engine (some []) = 1
    ∧ 0 ≤ get_volume_ratio_engine (some (List.replicate 12 (⟨1, 1, 1, 1, 2⟩ : Bar))) :=
  ⟨C7_amended_volume_ratio.2.1 [] (by decide),
    C7_amended_volume_ratio.2.2.2.1 (List.replicate 12 (⟨1, 1, 1, 1, 2⟩ : Bar))
      (by decide)⟩

/-- C8: when the minimum-distance clamp is not binding and the rounded
initial stop is nonzero, the realized profit at the initial stop
recovers the target T within one price increment times volume times
contract size. -/
theorem C8_round_trip (T : ℚ) (info : SymbolInfo) (pos : Position)
    (h_pt : info.point * 10 ^ info.digits = 1)
    (h_c : 0 < pos.volume * info.trade_contract_size)
    (h_nb_buy : pos.is_buy = true →
      pos.price_open + (T + Config.COMMISSION_PER_LOT * pos.volume - pos.swap) /
          (pos.volume * info.trade_contract_size)
        ≤ pos.price_current - VolumeATRTrailing.min_dist info)
    (h_nb_sell : pos.is_buy = false →
      pos.price_current + VolumeATRTrailing.min_dist info ≤
        pos.price_open - (T + Config.COMMISSION_PER_LOT * pos.volume - pos.swap) /
          (pos.volume * info.trade_contract_size))
    (h_nz : VolumeATRTrailing.calculate_initial_sl T info pos ≠ 0) :
    |VolumeATRTrailing.profit_if_sl_hit info pos
        (VolumeATRTrailing.calculate_initial_sl T info pos) - T|
      ≤ info.point * (pos.volume * info.trade_contract_size) := by
  have hC0 : pos.volume * info.trade_contract_size ≠ 0 := ne_of_gt h_c
  have h10 : ((10:ℚ) ^ info.digits) ≠ 0 := by positivity
  have hpv : info.point = 1 / 10 ^ info.digits := by
    rw [eq_div_iff h10]
    exact h_pt
  have hp0 : 0 < info.point := point_pos h_pt
  cases hb : pos.is_buy with
  | true =>
    have hsl : VolumeATRTrailing.calculate_initial_sl T info pos =
        roundTo info.digits (pos.price_open +
          (T + Config.COMMISSION_PER_LOT * pos.volume - pos.swap) /
            (pos.volume * info.trade_contract_size)) := by
      simp only [VolumeATRTrailing.calculate_initial_sl, hb, if_true]
      rw [min_eq_left (h_nb_buy hb)]
    rw [hsl] at h_nz ⊢
    have herr := roundTo_err info.digits (pos.price_open +
      (T + Config.COMMISSION_PER_LOT * pos.volume - pos.swap) /
        (pos.volume * info.trade_contract_size))
    generalize hr : roundTo info.digits (pos.price_open +
      (T + Config.COMMISSION_PER_LOT * pos.volume - pos.swap) /
        (pos.volume * info.trade_contract_size)) = r at h_nz herr ⊢
    simp only [VolumeATRTrailing.profit_if_sl_hit]
    rw [if_neg h_nz]
    simp only [hb, if_true]
    have hkey : r - pos.price_open -
        (T + Config.COMMISSION_PER_LOT * pos.volume - pos.swap) /
          (pos.volume * info.trade_contract_size)
        = r - (pos.price_open +
          (T + Config.COMMISSION_PER_LOT * pos.volume - pos.swap) /
            (pos.volume * info.trade_contract_size)) := by ring
    have hval : (r - pos.price_open) * pos.volume * info.trade_contract_size
        + pos.swap - Config.COMMISSION_PER_LOT * pos.volume - T
        = (r - (pos.price_open +
            (T + Config.COMMISSION_PER_LOT * pos.volume - pos.swap) /
              (pos.volume * info.trade_contract_size)))
          * (pos.volume * info.trade_contract_size) := by
      field_simp
      ring
    rw [hval]
    rw [abs_mul, abs_of_pos h_c]
    have h2 : |r - (pos.price_open +
        (T + Config.COMMISSION_PER_LOT * pos.volume - pos.swap) /
          (pos.volume * info.trade_contract_size))| ≤ info.point / 2 := by
      refine le_trans herr ?_
      rw [hpv]
      rw [div_div]
      rw [show (2:ℚ) * 10 ^ info.digits = 10 ^ info.digits * 2 by ring]
    calc |r - (pos.price_open +
          (T + Config.COMMISSION_PER_LOT * pos.volume - pos.swap) /
            (pos.volume * info.trade_contract_size))|
          * (pos.volume * info.trade_contract_size)
        ≤ (info.point / 2) * (pos.volume * info.trade_contract_size) :=
          mul_le_mul_of_nonneg_right h2 h_c.le
      _ ≤ info.point * (pos.volume * info.trade_contract_size) :=
          mul_le_mul_of_nonneg_right (by linarith) h_c.le
  | false =>
    have hsl : VolumeATRTrailing.calculate_initial_sl T info pos =
        roundTo info.digits (pos.price_open -
          (T + Config.COMMISSION_PER_LOT * pos.volume - pos.swap) /
            (pos.volume * info.trade_contract_size)) := by
      simp only [VolumeATRTrailing.calculate_initial_sl, hb, Bool.false_eq_true,
        if_false]
      rw [max_eq_left (h_nb_sell hb)]
    rw [hsl] at h_nz ⊢
    have herr := roundTo_err info.digits (pos.price_open -
      (T + Config.COMMISSION_PER_LOT * pos.volume - pos.swap) /
        (pos.volume * info.trade_contract_size))
    generalize hr : roundTo info.digits (pos.price_open -
      (T + Config.COMMISSION_PER_LOT * pos.volume - pos.swap) /
        (pos.volume * info.trade_contract_size)) = r at h_nz herr ⊢
    simp only [VolumeATRTrailing.profit_if_sl_hit]
    rw [if_neg h_nz]
    simp only [hb, Bool.false_eq_true, if_false]
    have hval : (pos.price_open - r) * pos.volume * info.trade_contract_size
        + pos.swap - Config.COMMISSION_PER_LOT * pos.volume - T
        = ((pos.price_open -
            (T + Config.COMMISSION_PER_LOT * pos.volume - pos.swap) /
              (pos.volume * info.trade_contract_size)) - r)
          * (pos.volume * info.trade_contract_size) := by
      field_simp
      ring
    rw [hval]
    rw [abs_mul, abs_of_pos h_c]
    have h2 : |(pos.price_open -
        (T + Config.COMMISSION_PER_LOT * pos.volume - pos.swap) /
          (pos.volume * info.trade_contract_size)) - r| ≤ info.point / 2 := by
      rw [abs_sub_comm]
      refine le_trans herr ?_
      rw [hpv]
      rw [div_div]
      rw [show (2:ℚ) * 10 ^ info.digits = 10 ^ info.digits * 2 by ring]
    calc |(pos.price_open -
          (T + Config.COMMISSION_PER_LOT * pos.volume - pos.swap) /
            (pos.volume * info.trade_contract_size)) - r|
          * (pos.volume * info.trade_contract_size)
        ≤ (info.point / 2) * (pos.volume * info.trade_contract_size) :=
          mul_le_mul_of_nonneg_right h2 h_c.le
      _ ≤ info.point * (pos.volume * info.trade_contract_size) :=
          mul_le_mul_of_nonneg_right (by linarith) h_c.le

/-- Witness for C8: long, entry 1.20000, price 1.21000, volume 0.5,
swap 0.25, threshold 10: the initial stop is 1.20023 and the realized
profit at it is exactly 10, well within the bound. -/
theorem C8_witness :
    |VolumeATRTrailing.profit_if_sl_hit ⟨5, 1/100000, 100000, 10⟩
        ⟨1, 0, 1/2, 12/10, 121/100, 0, 0, 50, 1/4⟩
        (VolumeATRTrailing.calculate_initial_sl 10 ⟨5, 1/100000, 100000, 10⟩
          ⟨1, 0, 1/2, 12/10, 121/100, 0, 0, 50, 1/4⟩) - 10|
      ≤ (1/100000 : ℚ) * ((1/2) * 100000) := by
  exact C8_round_trip 10 ⟨5, 1/100000, 100000, 10⟩
    ⟨1, 0, 1/2, 12/10, 121/100, 0, 0, 50, 1/4⟩ (by norm_num) (by norm_num)
    (fun _ => by decide) (fun h => absurd h (by decide)) (by decide)

/-- C10: when the per-minute profit velocity derived from the stored
last-profit record exceeds 6.0, calculate_next_sl scales the clipped
multiplier by max(0.7, 1 - velocity/60), a factor at least 0.7 and
strictly below 1; at the clip floor MIN_MULTIPLIER = 1 the effective
multiplier drops to 0.7 < MIN_MULTIPLIER, and a concrete owned long
invocation yields the stop 1.10520, strictly tighter (higher) than the
1.10400 that the clip floor multiplier would give. -/
theorem C10_velocity_below_min (mult profit pp pt now : ℚ)
    (hv : 6 < (profit - pp) / max ((now - pt) / 60) (1/10)) :
    (VolumeATRTrailing.effective_mult mult profit pp pt now
        = mult * max (7/10) (1 - ((profit - pp) / max ((now - pt) / 60) (1/10)) / 60))
    ∧ (7/10 : ℚ) ≤ max (7/10) (1 - ((profit - pp) / max ((now - pt) / 60) (1/10)) / 60)
    ∧ max ((7:ℚ)/10) (1 - ((profit - pp) / max ((now - pt) / 60) (1/10)) / 60) < 1
    ∧ VolumeATRTrailing.effective_mult Config.MIN_MULTIPLIER 10 0 0 1
        < Config.MIN_MULTIPLIER
    ∧ (VolumeATRTrailing.calculate_next_sl ⟨5, 1/100000, 100000, 10⟩
          ⟨9, 0, 1/10, 11/10, 1108/1000, 1102/1000, 0, 10, 0⟩ Config.MIN_MULTIPLIER
          (1/250) 1
          ⟨{9}, ∅, fun t => if t = 9 then some (0, 0) else none, fun _ => none⟩).1
        = 11052/10000
    ∧ ((1108:ℚ)/1000 - Config.MIN_MULTIPLIER * (1/250) < 11052/10000) := by
  refine ⟨?_, le_max_left _ _, ?_, by decide, by decide, by decide⟩
  · unfold VolumeATRTrailing.effective_mult
    rw [if_pos hv]
  · apply max_lt (by norm_num)
    have h0 : (0:ℚ) < (profit - pp) / max ((now - pt) / 60) (1/10) :=
      lt_trans (by norm_num) hv
    linarith

/-- Witness for C10: profit jumping from 0 to 10 in one minute gives
velocity 100, and the factor applied to a unit multiplier is 0.7. -/
theorem C10_witness :
    ((6:ℚ) < (10 - 0) / max ((1 - 0) / 60) (1/10))
    ∧ VolumeATRTrailing.effective_mult 1 10 0 0 1
      = 1 * max (7/10) (1 - (((10:ℚ) - 0) / max ((1 - 0) / 60) (1/10)) / 60) := by
  refine ⟨by decide, ?_⟩
  exact (C10_velocity_below_min 1 10 0 0 1 (by decide)).1
